import Mathlib

/-!
Shallow embedding of the duration-synchronization core of
`scripts/merge_media.py` (class `MediaSyncer`).

Modelling conventions:
* Python floats (durations, speed factors) are embedded as exact rationals
  (`ℚ`); decimal literals such as `1.05` become `21/20`.  The source formats
  factors with six decimal places when serialising the ffmpeg filter string;
  the embedding keeps the exact numeric value the source computes.
* Each `_sync_*` method builds one ffmpeg argument list.  The embedding
  records that argument list structurally (`FfmpegCmd`): which `setpts`
  PTS multiplier appears in the filter graph, which `atempo` stages appear,
  the codec settings, whether `-shortest` is passed, and the `-t` duration
  limit, exactly as assembled by the source.
* `subprocess` interaction is modelled by an explicit outcome record
  (`ExecOutcome`) describing what the external world did; `execute_ffmpeg`
  maps it to the boolean the source returns.
* Python's `float(...)` string parser is abstracted as an oracle
  `List Char → Option ℚ` (`none` models a raised `ValueError`); strings are
  modelled as `List Char` so that `str.split('/')` is the structural
  `splitSlash` below.
-/

/-- `class SyncMethod(Enum)` from the source. -/
inductive SyncMethod
  | VIDEO_SPEED
  | AUDIO_SPEED
  | BALANCED
  | CROP_EXTEND
  | SMART_AUTO
  deriving DecidableEq, Repr

/-- The `quality_impact` labels assigned by `analyze_sync_strategy`. -/
inductive QualityImpact
  | minimal
  | low
  | moderate
  | high
  deriving DecidableEq, Repr

/-- The analysis dictionary built by `analyze_sync_strategy`. -/
structure SyncAnalysis where
  video_duration : ℚ
  audio_duration : ℚ
  difference_seconds : ℚ
  difference_percent : ℚ
  duration_ratio : ℚ
  recommended_method : SyncMethod
  speed_factor_needed : ℚ
  quality_impact : QualityImpact
  deriving DecidableEq, Repr

/-- Body of `analyze_sync_strategy` after the zero-duration guard: the
metric computations and the threshold chain that fills in
`recommended_method` and `quality_impact`. -/
def analyze_body (v_dur a_dur : ℚ) : SyncAnalysis :=
  let duration_diff := |v_dur - a_dur|
  let duration_ratio := max v_dur a_dur / min v_dur a_dur
  let mi : SyncMethod × QualityImpact :=
    if duration_ratio ≤ 21/20 then
      (SyncMethod.CROP_EXTEND, QualityImpact.minimal)
    else if duration_ratio ≤ 23/20 then
      (SyncMethod.BALANCED, QualityImpact.low)
    else if duration_ratio ≤ 3/2 then
      (if v_dur > a_dur then SyncMethod.VIDEO_SPEED else SyncMethod.AUDIO_SPEED,
       QualityImpact.moderate)
    else
      (SyncMethod.BALANCED, QualityImpact.high)
  { video_duration := v_dur
    audio_duration := a_dur
    difference_seconds := duration_diff
    difference_percent := duration_diff / max v_dur a_dur * 100
    duration_ratio := duration_ratio
    recommended_method := mi.1
    speed_factor_needed := v_dur / a_dur
    quality_impact := mi.2 }

/-- `analyze_sync_strategy(self, video_info, audio_info)`: raises
`ValueError("Invalid media durations")` when either duration `== 0`,
otherwise returns the analysis dictionary. -/
def analyze_sync_strategy (v_dur a_dur : ℚ) : Except String SyncAnalysis :=
  if v_dur = 0 ∨ a_dur = 0 then
    Except.error ("Invalid media durations")
  else
    Except.ok (analyze_body v_dur a_dur)

/-- One bundle from the `settings` table of `_get_quality_settings`. -/
structure QualitySettings where
  video_codec : String
  preset : String
  crf : Nat
  audio_codec : String
  audio_bitrate : String
  deriving DecidableEq, Repr

/-- `_get_quality_settings(self, quality)`: `settings.get(quality,
settings['balanced'])`. -/
def get_quality_settings (quality : String) : QualitySettings :=
  if quality = "fast" then
    { video_codec := "libx264", preset := "veryfast", crf := 28,
      audio_codec := "aac", audio_bitrate := "128k" }
  else if quality = "balanced" then
    { video_codec := "libx264", preset := "medium", crf := 23,
      audio_codec := "aac", audio_bitrate := "192k" }
  else if quality = "high" then
    { video_codec := "libx264", preset := "slow", crf := 18,
      audio_codec := "aac", audio_bitrate := "320k" }
  else
    { video_codec := "libx264", preset := "medium", crf := 23,
      audio_codec := "aac", audio_bitrate := "192k" }

/-- Structural record of one ffmpeg invocation as assembled by a
`_sync_*` method: the `setpts` multiplier of the filter graph (if any),
the list of `atempo` stage factors (if any), the encoder settings, the
`-shortest` flag, and the `-t` duration limit (if any). -/
structure FfmpegCmd where
  video_pts_multiplier : Option ℚ
  audio_tempo_stages : Option (List ℚ)
  video_codec : String
  preset : String
  crf : Nat
  audio_codec : String
  audio_bitrate : String
  shortest : Bool
  duration_limit : Option ℚ
  deriving DecidableEq, Repr

/-- First `while` loop of `_build_atempo_chain`: while `remaining > 100.0`
append an `atempo=100.0` stage and divide `remaining` by `100.0`.  Returns
the appended stages together with the final `remaining`. -/
def atempoLoopDown (remaining : ℚ) : List ℚ × ℚ :=
  if h : 100 < remaining then
    ((100 : ℚ) :: (atempoLoopDown (remaining / 100)).1,
     (atempoLoopDown (remaining / 100)).2)
  else
    ([], remaining)
termination_by (⌈remaining⌉).toNat
decreasing_by
  all_goals
    have h1 : remaining / 100 ≤ remaining - 1 := by
      rw [div_le_iff₀ (by norm_num : (0:ℚ) < 100)]; linarith
    have h2 : ⌈remaining / 100⌉ ≤ ⌈remaining⌉ - 1 := by
      have := Int.ceil_le_ceil h1
      rwa [show remaining - 1 = remaining - ((1:ℤ):ℚ) by push_cast; ring,
        Int.ceil_sub_int] at this
    have h3 : (0:ℤ) < ⌈remaining⌉ := Int.ceil_pos.mpr (by linarith)
    omega

/-- Second `while` loop of `_build_atempo_chain`: while `remaining < 0.5`
append an `atempo=0.5` stage and divide `remaining` by `0.5`.  The source
loop does not terminate when `remaining ≤ 0` (dividing a non-positive value
by `0.5` keeps it below `0.5` forever), so the embedding adds the positivity
guard `0 < remaining`; every theorem about the chain assumes a positive
factor, where guard and source condition agree. -/
def atempoLoopUp (remaining : ℚ) : List ℚ × ℚ :=
  if h : 0 < remaining ∧ remaining < 1/2 then
    ((1/2 : ℚ) :: (atempoLoopUp (remaining / (1/2))).1,
     (atempoLoopUp (remaining / (1/2))).2)
  else
    ([], remaining)
termination_by (⌈1 / remaining⌉).toNat
decreasing_by
  all_goals
    obtain ⟨h0, hhalf⟩ := h
    have hne : remaining ≠ 0 := ne_of_gt h0
    have e : remaining / (1/2) = 2 * remaining := by ring
    have h2r : (0:ℚ) < 2 * remaining := by linarith
    have h1 : 1 / (remaining / (1/2)) ≤ 1 / remaining - 1 := by
      rw [e, div_le_iff₀ h2r]
      have expand : (1 / remaining - 1) * (2 * remaining) = 2 - 2 * remaining := by
        field_simp
        ring
      rw [expand]; linarith
    have h2 : ⌈1 / (remaining / (1/2))⌉ ≤ ⌈1 / remaining⌉ - 1 := by
      have := Int.ceil_le_ceil h1
      rwa [show 1 / remaining - 1 = 1 / remaining - ((1:ℤ):ℚ) by push_cast; ring,
        Int.ceil_sub_int] at this
    have h3 : (0:ℤ) < ⌈1 / remaining⌉ :=
      Int.ceil_pos.mpr (by positivity)
    omega

/-- `_build_atempo_chain(self, speed_factor)`: a single stage when the factor
is within `[0.5, 100.0]`, otherwise the stages appended by the two loops
followed by the final residual stage when it is not exactly `1.0`. -/
def build_atempo_chain (speed_factor : ℚ) : List ℚ :=
  if 1/2 ≤ speed_factor ∧ speed_factor ≤ 100 then
    [speed_factor]
  else
    if (atempoLoopUp ((atempoLoopDown speed_factor).2)).2 ≠ 1 then
      (atempoLoopDown speed_factor).1 ++
        (atempoLoopUp ((atempoLoopDown speed_factor).2)).1 ++
        [(atempoLoopUp ((atempoLoopDown speed_factor).2)).2]
    else
      (atempoLoopDown speed_factor).1 ++
        (atempoLoopUp ((atempoLoopDown speed_factor).2)).1

/-- `_sync_video_speed`: filter `[0:v]setpts={speed_factor}*PTS[v]` with
`speed_factor = analysis['speed_factor_needed']`, audio mapped through
untouched, `-shortest` passed, no `-t`. -/
def sync_video_speed (analysis : SyncAnalysis) (quality : String) : FfmpegCmd :=
  let speed_factor := analysis.speed_factor_needed
  let qs := get_quality_settings quality
  { video_pts_multiplier := some speed_factor
    audio_tempo_stages := none
    video_codec := qs.video_codec
    preset := qs.preset
    crf := qs.crf
    audio_codec := qs.audio_codec
    audio_bitrate := qs.audio_bitrate
    shortest := true
    duration_limit := none }

/-- `_sync_audio_speed`: tempo factor `1 / speed_factor_needed`; a chain is
built through `_build_atempo_chain` when the factor leaves `[0.5, 100.0]`,
otherwise a single `atempo` stage; video mapped through untouched,
`-shortest` passed. -/
def sync_audio_speed (analysis : SyncAnalysis) (quality : String) : FfmpegCmd :=
  let speed_factor := 1 / analysis.speed_factor_needed
  let chain :=
    if speed_factor < 1/2 ∨ 100 < speed_factor then
      build_atempo_chain speed_factor
    else
      [speed_factor]
  let qs := get_quality_settings quality
  { video_pts_multiplier := none
    audio_tempo_stages := some chain
    video_codec := qs.video_codec
    preset := qs.preset
    crf := qs.crf
    audio_codec := qs.audio_codec
    audio_bitrate := qs.audio_bitrate
    shortest := true
    duration_limit := none }

/-- `_sync_balanced`: target is the mean of the two durations; filter
`setpts={video_duration/target}*PTS` plus the atempo chain for
`target/audio_duration`; `-shortest` passed. -/
def sync_balanced (analysis : SyncAnalysis) (quality : String) : FfmpegCmd :=
  let target_duration := (analysis.video_duration + analysis.audio_duration) / 2
  let video_speed := analysis.video_duration / target_duration
  let audio_speed := target_duration / analysis.audio_duration
  let chain := build_atempo_chain audio_speed
  let qs := get_quality_settings quality
  { video_pts_multiplier := some video_speed
    audio_tempo_stages := some chain
    video_codec := qs.video_codec
    preset := qs.preset
    crf := qs.crf
    audio_codec := qs.audio_codec
    audio_bitrate := qs.audio_bitrate
    shortest := true
    duration_limit := none }

/-- `_sync_crop_extend`: no filter graph at all; `-t min(v_dur, a_dur)`
limits the output, and no `-shortest` flag appears in this command. -/
def sync_crop_extend (analysis : SyncAnalysis) (quality : String) : FfmpegCmd :=
  let target_duration := min analysis.video_duration analysis.audio_duration
  let qs := get_quality_settings quality
  { video_pts_multiplier := none
    audio_tempo_stages := none
    video_codec := qs.video_codec
    preset := qs.preset
    crf := qs.crf
    audio_codec := qs.audio_codec
    audio_bitrate := qs.audio_bitrate
    shortest := false
    duration_limit := some target_duration }

/-- What the external world did when `_execute_ffmpeg` ran its command:
whether `Popen`/`communicate` raised, the process return code, and the
state of the destination file afterwards.  The source never reads the last
two destination fields; they are part of the modelled environment. -/
structure ExecOutcome where
  raised : Bool
  returncode : Int
  output_exists : Bool
  output_size_bytes : Nat
  deriving DecidableEq, Repr

/-- `_execute_ffmpeg(self, cmd)`: `False` when an exception was raised or
the return code is non-zero, `True` otherwise.  No inspection of the
destination file takes place. -/
def execute_ffmpeg (o : ExecOutcome) : Bool :=
  if o.raised then
    false
  else if o.returncode ≠ 0 then
    false
  else
    true

/-- The method-dispatch portion of `sync_media`: `SMART_AUTO` is replaced by
the analysis recommendation, then the four-way `if`/`elif` chain selects
which `_sync_*` builder runs; `none` models the fall-through where
`success` stays `False` with no invocation built. -/
def sync_media_dispatch (method : SyncMethod) (analysis : SyncAnalysis)
    (quality : String) : Option FfmpegCmd :=
  let m := if method = SyncMethod.SMART_AUTO then analysis.recommended_method
           else method
  if m = SyncMethod.VIDEO_SPEED then some (sync_video_speed analysis quality)
  else if m = SyncMethod.AUDIO_SPEED then some (sync_audio_speed analysis quality)
  else if m = SyncMethod.BALANCED then some (sync_balanced analysis quality)
  else if m = SyncMethod.CROP_EXTEND then some (sync_crop_extend analysis quality)
  else none

/-- Python's `fps_str.split('/')` on a character-list model of the string:
splits at every `'/'`, keeping empty parts, never returning an empty list. -/
def splitSlash : List Char → List (List Char)
  | [] => [[]]
  | c :: rest =>
    match splitSlash rest with
    | [] => [[]]
    | part :: parts =>
      if c = '/' then [] :: part :: parts else (c :: part) :: parts

/-- `_parse_framerate(self, fps_str)`.  `pyFloat` abstracts Python's
`float(...)` on strings, `none` modelling a raised `ValueError`.  When the
string contains `'/'`, the two-way unpacking of `split('/')` succeeds only
for exactly two parts, division by a zero denominator yields `0`, and every
raised exception is caught by the bare `except`, which returns `0`;
otherwise the string itself is parsed as a bare number, a failure again
yielding `0`. -/
def parse_framerate (pyFloat : List Char → Option ℚ) (fps_str : List Char) : ℚ :=
  if ('/') ∈ fps_str then
    match splitSlash fps_str with
    | [num, den] =>
      match pyFloat num, pyFloat den with
      | some n, some d => if d ≠ 0 then n / d else 0
      | _, _ => 0
    | _ => 0
  else
    (pyFloat fps_str).getD 0

/-! ### Helper lemmas -/

lemma analyze_body_video_duration (v a : ℚ) :
    (analyze_body v a).video_duration = v := rfl

lemma analyze_body_audio_duration (v a : ℚ) :
    (analyze_body v a).audio_duration = a := rfl

lemma analyze_body_speed_factor (v a : ℚ) :
    (analyze_body v a).speed_factor_needed = v / a := rfl

lemma analyze_body_ratio (v a : ℚ) :
    (analyze_body v a).duration_ratio = max v a / min v a := rfl

lemma analyze_body_mi (v a : ℚ) :
    ((analyze_body v a).recommended_method, (analyze_body v a).quality_impact) =
      (if max v a / min v a ≤ 21/20 then
        (SyncMethod.CROP_EXTEND, QualityImpact.minimal)
      else if max v a / min v a ≤ 23/20 then
        (SyncMethod.BALANCED, QualityImpact.low)
      else if max v a / min v a ≤ 3/2 then
        (if v > a then SyncMethod.VIDEO_SPEED else SyncMethod.AUDIO_SPEED,
         QualityImpact.moderate)
      else
        (SyncMethod.BALANCED, QualityImpact.high)) := rfl

lemma atempoLoopDown_of_not_gt {r : ℚ} (h : ¬ 100 < r) :
    atempoLoopDown r = ([], r) := by
  rw [atempoLoopDown]
  simp [h]

lemma atempoLoopUp_of_not_lt {r : ℚ} (h : ¬ (0 < r ∧ r < 1/2)) :
    atempoLoopUp r = ([], r) := by
  rw [atempoLoopUp]
  simp only [h, dite_false]

lemma atempoLoopDown_spec : ∀ r : ℚ, 0 < r →
    (∀ s ∈ (atempoLoopDown r).1, s = (100:ℚ)) ∧
    (atempoLoopDown r).1.prod * (atempoLoopDown r).2 = r ∧
    0 < (atempoLoopDown r).2 ∧
    (atempoLoopDown r).2 ≤ 100 ∧
    (100 < r → 1 < (atempoLoopDown r).2) := by
  intro r
  induction r using atempoLoopDown.induct with
  | case1 r h ih =>
    intro hr
    have hr100 : 0 < r / 100 := by positivity
    obtain ⟨ihmem, ihprod, ihpos, ihle, ihgt⟩ := ih hr100
    rw [atempoLoopDown, dif_pos h]
    refine ⟨?_, ?_, ihpos, ihle, ?_⟩
    · intro s hs
      rcases List.mem_cons.mp hs with h1 | h1
      · exact h1
      · exact ihmem s h1
    · simp only [List.prod_cons]
      rw [mul_assoc, ihprod]
      field_simp
    · intro _
      by_cases hgt : 100 < r / 100
      · exact ihgt hgt
      · rw [atempoLoopDown_of_not_gt hgt]
        rw [lt_div_iff₀ (by norm_num : (0:ℚ) < 100)]
        simpa using h
  | case2 r h =>
    intro hr
    rw [atempoLoopDown_of_not_gt h]
    refine ⟨by simp, by simp, hr, le_of_not_lt h, fun hc => absurd hc h⟩

lemma atempoLoopUp_spec : ∀ r : ℚ, 0 < r →
    (∀ s ∈ (atempoLoopUp r).1, s = (1/2:ℚ)) ∧
    (atempoLoopUp r).1.prod * (atempoLoopUp r).2 = r ∧
    0 < (atempoLoopUp r).2 ∧
    (1/2:ℚ) ≤ (atempoLoopUp r).2 ∧
    (r < 1/2 → (atempoLoopUp r).2 < 1) := by
  intro r
  induction r using atempoLoopUp.induct with
  | case1 r h ih =>
    obtain ⟨h0, hhalf⟩ := h
    intro hr
    have e : r / (1/2) = 2 * r := by ring
    have h2r : 0 < r / (1/2) := by rw [e]; linarith
    obtain ⟨ihmem, ihprod, ihpos, ihge, ihlt⟩ := ih h2r
    rw [atempoLoopUp, dif_pos ⟨h0, hhalf⟩]
    refine ⟨?_, ?_, ihpos, ihge, ?_⟩
    · intro s hs
      rcases List.mem_cons.mp hs with h1 | h1
      · exact h1
      · exact ihmem s h1
    · simp only [List.prod_cons]
      rw [mul_assoc, ihprod, e]
      ring
    · intro _
      by_cases hlt : r / (1/2) < 1/2
      · exact ihlt hlt
      · rw [atempoLoopUp_of_not_lt (fun hc => hlt hc.2)]
        rw [e]
        linarith
  | case2 r h =>
    intro hr
    have hge : (1/2:ℚ) ≤ r := by
      by_contra hc
      exact h ⟨hr, lt_of_not_le hc⟩
    rw [atempoLoopUp_of_not_lt h]
    exact ⟨by simp, by simp, hr, hge, fun hc => absurd ⟨hr, hc⟩ h⟩

lemma atempoLoopDown_250 : atempoLoopDown (250:ℚ) = ([100], 5/2) := by
  rw [atempoLoopDown, dif_pos (by norm_num : (100:ℚ) < 250)]
  rw [show (250:ℚ)/100 = 5/2 by norm_num]
  rw [atempoLoopDown_of_not_gt (by norm_num : ¬ (100:ℚ) < 5/2)]

lemma build_atempo_chain_250 : build_atempo_chain (250:ℚ) = [100, 5/2] := by
  rw [build_atempo_chain,
    if_neg (by norm_num : ¬ ((1:ℚ)/2 ≤ 250 ∧ (250:ℚ) ≤ 100))]
  simp only [atempoLoopDown_250, Prod.snd, Prod.fst]
  rw [atempoLoopUp_of_not_lt (by norm_num : ¬ ((0:ℚ) < 5/2 ∧ (5:ℚ)/2 < 1/2))]
  norm_num

/-- Claim C4: for every target tempo factor f > 0, the tempo-chain builder
`_build_atempo_chain` terminates and returns a non-empty sequence of stage
factors such that every stage lies in [0.5, 100.0] and the product of all
stages equals f exactly; in particular f = 250 yields the chain
[100.0, 2.5]. -/
theorem build_atempo_chain_spec (f : ℚ) (hf : 0 < f) :
    build_atempo_chain f ≠ [] ∧
    (∀ s ∈ build_atempo_chain f, (1/2:ℚ) ≤ s ∧ s ≤ 100) ∧
    (build_atempo_chain f).prod = f ∧
    build_atempo_chain 250 = [100, 5/2] := by
  have main : build_atempo_chain f ≠ [] ∧
      (∀ s ∈ build_atempo_chain f, (1/2:ℚ) ≤ s ∧ s ≤ 100) ∧
      (build_atempo_chain f).prod = f := by
    by_cases hin : (1:ℚ)/2 ≤ f ∧ f ≤ 100
    · rw [build_atempo_chain, if_pos hin]
      refine ⟨by simp, ?_, by simp⟩
      intro s hs
      rw [List.mem_singleton] at hs
      rw [hs]
      exact hin
    · rcases not_and_or.mp hin with hlow | hhigh
      · have hflt : f < 1/2 := lt_of_not_le hlow
        have hdn : atempoLoopDown f = ([], f) :=
          atempoLoopDown_of_not_gt (by linarith)
        obtain ⟨umem, uprod, upos, uge, ult⟩ := atempoLoopUp_spec f hf
        have hne1 : (atempoLoopUp f).2 ≠ 1 := ne_of_lt (ult hflt)
        have hchain : build_atempo_chain f =
            (atempoLoopUp f).1 ++ [(atempoLoopUp f).2] := by
          rw [build_atempo_chain, if_neg hin]
          simp only [hdn, Prod.snd, Prod.fst]
          rw [if_pos hne1]
          simp
        rw [hchain]
        refine ⟨by simp, ?_, ?_⟩
        · intro s hs
          rcases List.mem_append.mp hs with h1 | h1
          · rw [umem s h1]
            norm_num
          · rw [List.mem_singleton] at h1
            rw [h1]
            exact ⟨uge, by linarith [ult hflt]⟩
        · rw [List.prod_append, List.prod_singleton]
          exact uprod
      · have hfgt : 100 < f := lt_of_not_le hhigh
        obtain ⟨dmem, dprod, dpos, dle, dgt⟩ := atempoLoopDown_spec f hf
        have hr1 : 1 < (atempoLoopDown f).2 := dgt hfgt
        have hup : atempoLoopUp ((atempoLoopDown f).2) =
            ([], (atempoLoopDown f).2) :=
          atempoLoopUp_of_not_lt (by intro hc; linarith [hc.2])
        have hne1 : (atempoLoopDown f).2 ≠ 1 := ne_of_gt hr1
        have hchain : build_atempo_chain f =
            (atempoLoopDown f).1 ++ [(atempoLoopDown f).2] := by
          rw [build_atempo_chain, if_neg hin]
          simp only [hup, Prod.snd, Prod.fst]
          rw [if_pos hne1]
          simp
        rw [hchain]
        refine ⟨by simp, ?_, ?_⟩
        · intro s hs
          rcases List.mem_append.mp hs with h1 | h1
          · rw [dmem s h1]
            norm_num
          · rw [List.mem_singleton] at h1
            rw [h1]
            exact ⟨by linarith, dle⟩
        · rw [List.prod_append, List.prod_singleton]
          exact dprod
  exact ⟨main.1, main.2.1, main.2.2, build_atempo_chain_250⟩

/-- Witness for the tempo-chain claim at the concrete factor 250. -/
theorem build_atempo_chain_spec_witness :
    (0:ℚ) < 250 ∧
    (build_atempo_chain 250 ≠ [] ∧
     (∀ s ∈ build_atempo_chain 250, (1/2:ℚ) ≤ s ∧ s ≤ 100) ∧
     (build_atempo_chain 250).prod = 250 ∧
     build_atempo_chain 250 = [100, 5/2]) :=
  ⟨by decide, build_atempo_chain_spec 250 (by decide)⟩

/-! ### Claim theorems -/

/-- The method-selection policy table of spec §4.2, written from the spec's
words: rows evaluated in order on durationRatio, first match winning, the
1.15–1.50 band tie-broken by which stream is longer.  Compared against the
source-derived `analyze_body` in the C2 theorem. -/
def spec_selection_table (v a : ℚ) : SyncMethod × QualityImpact :=
  let ratio := max v a / min v a
  if ratio ≤ 21/20 then (SyncMethod.CROP_EXTEND, QualityImpact.minimal)
  else if ratio ≤ 23/20 then (SyncMethod.BALANCED, QualityImpact.low)
  else if ratio ≤ 3/2 then
    (if v > a then SyncMethod.VIDEO_SPEED else SyncMethod.AUDIO_SPEED,
     QualityImpact.moderate)
  else (SyncMethod.BALANCED, QualityImpact.high)

lemma analyze_body_30_20 :
    (analyze_body 30 20).recommended_method = SyncMethod.VIDEO_SPEED ∧
    (analyze_body 30 20).speed_factor_needed = 3/2 := by
  have h := analyze_body_mi 30 20
  rw [max_eq_left (by norm_num : (20:ℚ) ≤ 30),
    min_eq_right (by norm_num : (20:ℚ) ≤ 30)] at h
  rw [if_neg (by norm_num), if_neg (by norm_num), if_pos (by norm_num),
    if_pos (by norm_num)] at h
  rw [Prod.mk.injEq] at h
  refine ⟨h.1, ?_⟩
  rw [analyze_body_speed_factor]
  norm_num

/-- Claim C2: for all positive durations the analysis succeeds and selects
recommended method and quality impact exactly as the spec's first-match
policy table on durationRatio prescribes; in particular v = 30, a = 20
(ratio exactly 1.5) yields video_speed with speedFactorNeeded = 3/2. -/
theorem analyze_selection_policy (v a : ℚ) (hv : 0 < v) (ha : 0 < a) :
    analyze_sync_strategy v a = Except.ok (analyze_body v a) ∧
    ((analyze_body v a).recommended_method, (analyze_body v a).quality_impact) =
      spec_selection_table v a ∧
    (analyze_body v a).speed_factor_needed = v / a ∧
    (analyze_body 30 20).recommended_method = SyncMethod.VIDEO_SPEED ∧
    (analyze_body 30 20).speed_factor_needed = 3/2 := by
  refine ⟨?_, analyze_body_mi v a, rfl, analyze_body_30_20.1, analyze_body_30_20.2⟩
  rw [analyze_sync_strategy, if_neg]
  push_neg
  exact ⟨ne_of_gt hv, ne_of_gt ha⟩

/-- Witness for the selection-policy claim at v = 30, a = 20. -/
theorem analyze_selection_policy_witness :
    (0:ℚ) < 30 ∧ (0:ℚ) < 20 ∧
    (analyze_sync_strategy 30 20 = Except.ok (analyze_body 30 20) ∧
     ((analyze_body 30 20).recommended_method,
       (analyze_body 30 20).quality_impact) = spec_selection_table 30 20 ∧
     (analyze_body 30 20).speed_factor_needed = 30 / 20 ∧
     (analyze_body 30 20).recommended_method = SyncMethod.VIDEO_SPEED ∧
     (analyze_body 30 20).speed_factor_needed = 3/2) :=
  ⟨by decide, by decide, analyze_selection_policy 30 20 (by decide) (by decide)⟩

/-- Claim C9: for positive durations the durationRatio computed by the
analysis is symmetric in the two durations and always at least 1. -/
theorem duration_ratio_symm_ge_one (v a : ℚ) (hv : 0 < v) (ha : 0 < a) :
    (analyze_body v a).duration_ratio = (analyze_body a v).duration_ratio ∧
    1 ≤ (analyze_body v a).duration_ratio := by
  rw [analyze_body_ratio, analyze_body_ratio]
  refine ⟨by rw [max_comm, min_comm], ?_⟩
  rw [le_div_iff₀ (lt_min hv ha), one_mul]
  exact min_le_max

/-- Witness for ratio symmetry at v = 2, a = 3. -/
theorem duration_ratio_symm_ge_one_witness :
    (0:ℚ) < 2 ∧ (0:ℚ) < 3 ∧
    ((analyze_body 2 3).duration_ratio = (analyze_body 3 2).duration_ratio ∧
     1 ≤ (analyze_body 2 3).duration_ratio) :=
  ⟨by decide, by decide, duration_ratio_symm_ge_one 2 3 (by decide) (by decide)⟩

/-- Counterexample to claim C6: the negative duration v = -1 is accepted
without the invalid-duration error — the guard tests equality with zero
only — and an analysis (method crop_extend) is produced, though the claim
requires the error for every duration ≤ 0. -/
theorem analyze_negative_duration_accepted :
    analyze_sync_strategy (-1) 10 = Except.ok (analyze_body (-1) 10) ∧
    ((-1:ℚ) ≤ 0) ∧
    (analyze_body (-1) 10).recommended_method = SyncMethod.CROP_EXTEND := by
  refine ⟨?_, by norm_num, ?_⟩
  · rw [analyze_sync_strategy, if_neg]
    push_neg
    constructor <;> norm_num
  · have h := analyze_body_mi (-1) 10
    rw [max_eq_right (by norm_num : (-1:ℚ) ≤ 10),
      min_eq_left (by norm_num : (-1:ℚ) ≤ 10)] at h
    rw [if_pos (by norm_num)] at h
    rw [Prod.mk.injEq] at h
    exact h.1

/-- Claim C6 (amended): `analyze_sync_strategy` raises the invalid-duration
error exactly when one of the two durations equals zero; negative durations
pass the guard unrejected. -/
theorem analyze_error_iff_zero (v a : ℚ) :
    analyze_sync_strategy v a = Except.error ("Invalid media durations") ↔
      (v = 0 ∨ a = 0) := by
  rw [analyze_sync_strategy]
  split_ifs with h
  · simp [h]
  · simp [h]

/-- Claim C10: every analysis passing the duration guard recommends one of
the four concrete variants — never SMART_AUTO — so the smart_auto dispatch
of `sync_media` always resolves to exactly one execution variant. -/
theorem recommended_method_always_concrete (v a : ℚ) (hv : v ≠ 0) (ha : a ≠ 0)
    (q : String) :
    analyze_sync_strategy v a = Except.ok (analyze_body v a) ∧
    ((analyze_body v a).recommended_method = SyncMethod.VIDEO_SPEED ∨
     (analyze_body v a).recommended_method = SyncMethod.AUDIO_SPEED ∨
     (analyze_body v a).recommended_method = SyncMethod.BALANCED ∨
     (analyze_body v a).recommended_method = SyncMethod.CROP_EXTEND) ∧
    (analyze_body v a).recommended_method ≠ SyncMethod.SMART_AUTO ∧
    (sync_media_dispatch SyncMethod.SMART_AUTO (analyze_body v a) q).isSome
      = true := by
  have hok : analyze_sync_strategy v a = Except.ok (analyze_body v a) := by
    rw [analyze_sync_strategy, if_neg]
    push_neg
    exact ⟨hv, ha⟩
  have hmi := analyze_body_mi v a
  split_ifs at hmi <;>
    rw [Prod.mk.injEq] at hmi <;>
    obtain ⟨h1, h2⟩ := hmi <;>
    exact ⟨hok, by simp [h1], by simp [h1], by simp [sync_media_dispatch, h1]⟩

/-- Witness for the concrete-recommendation claim at v = 2, a = 3. -/
theorem recommended_method_always_concrete_witness :
    (2:ℚ) ≠ 0 ∧ (3:ℚ) ≠ 0 ∧
    (analyze_sync_strategy 2 3 = Except.ok (analyze_body 2 3) ∧
     ((analyze_body 2 3).recommended_method = SyncMethod.VIDEO_SPEED ∨
      (analyze_body 2 3).recommended_method = SyncMethod.AUDIO_SPEED ∨
      (analyze_body 2 3).recommended_method = SyncMethod.BALANCED ∨
      (analyze_body 2 3).recommended_method = SyncMethod.CROP_EXTEND) ∧
     (analyze_body 2 3).recommended_method ≠ SyncMethod.SMART_AUTO ∧
     (sync_media_dispatch SyncMethod.SMART_AUTO (analyze_body 2 3)
       ("high")).isSome = true) :=
  ⟨by decide, by decide,
   recommended_method_always_concrete 2 3 (by decide) (by decide) ("high")⟩

/-- Claim C7: for positive durations the crop_extend invocation applies no
speed change — no PTS-rescaling multiplier and no tempo filter appear in
the command — and limits the output duration with the -t option to exactly
min(v, a). -/
theorem sync_crop_extend_spec (v a : ℚ) (_hv : 0 < v) (_ha : 0 < a)
    (q : String) :
    (sync_crop_extend (analyze_body v a) q).video_pts_multiplier = none ∧
    (sync_crop_extend (analyze_body v a) q).audio_tempo_stages = none ∧
    (sync_crop_extend (analyze_body v a) q).duration_limit = some (min v a) :=
  ⟨rfl, rfl, rfl⟩

/-- Witness for the crop_extend claim at v = 10, a = 3. -/
theorem sync_crop_extend_spec_witness :
    (0:ℚ) < 10 ∧ (0:ℚ) < 3 ∧
    ((sync_crop_extend (analyze_body 10 3) ("high")).video_pts_multiplier
        = none ∧
     (sync_crop_extend (analyze_body 10 3) ("high")).audio_tempo_stages
        = none ∧
     (sync_crop_extend (analyze_body 10 3) ("high")).duration_limit
        = some (min 10 3)) :=
  ⟨by decide, by decide,
   sync_crop_extend_spec 10 3 (by decide) (by decide) ("high")⟩

/-- Claim C1, evaluated at the failing input v = 30, a = 20: the
video_speed invocation does use the PTS multiplier speedFactorNeeded =
v/a = 3/2, but rescaling the 30-second video by that multiplier gives
duration 30 × 3/2 = 45 seconds, not the 20-second audio duration; making
the video match the audio would need the reciprocal multiplier 2/3. -/
theorem sync_video_speed_rescale_bug :
    (sync_video_speed (analyze_body 30 20) ("high")).video_pts_multiplier =
      some ((analyze_body 30 20).speed_factor_needed) ∧
    (analyze_body 30 20).speed_factor_needed = 3/2 ∧
    (analyze_body 30 20).video_duration * (3/2) = 45 ∧
    (45:ℚ) ≠ (analyze_body 30 20).audio_duration := by
  refine ⟨rfl, ?_, ?_, ?_⟩
  · rw [analyze_body_speed_factor]
    norm_num
  · rw [analyze_body_video_duration]
    norm_num
  · rw [analyze_body_audio_duration]
    norm_num

/-- Claim C3, evaluated at the failing input v = 20, a = 17 (target
duration (20+17)/2 = 18.5): the balanced invocation does use PTS
multiplier v/target = 40/37 and tempo factor target/a = 37/34 as the
claim states, but the post-adjustment durations v × (v/target) = 800/37
and a / (target/a) = 578/37 are both different from the target; reaching
the target would need the reciprocal factors. -/
theorem sync_balanced_target_bug :
    (sync_balanced (analyze_body 20 17) ("high")).video_pts_multiplier =
      some (20 / ((20 + 17) / 2)) ∧
    (sync_balanced (analyze_body 20 17) ("high")).audio_tempo_stages =
      some [((20 + 17) / 2) / 17] ∧
    (analyze_body 20 17).video_duration * (20 / ((20 + 17) / 2)) ≠
      (20 + 17) / 2 ∧
    (analyze_body 20 17).audio_duration / (((20 + 17) / 2) / 17) ≠
      (20 + 17) / 2 := by
  have hchain : build_atempo_chain (((20:ℚ) + 17) / 2 / 17) =
      [((20:ℚ) + 17) / 2 / 17] := by
    rw [build_atempo_chain, if_pos (by norm_num)]
  refine ⟨rfl, ?_, ?_, ?_⟩
  · show some (build_atempo_chain (((20:ℚ) + 17) / 2 / 17)) = _
    rw [hchain]
  · rw [analyze_body_video_duration]
    norm_num
  · rw [analyze_body_audio_duration]
    norm_num

/-- Counterexample to claim C5: the external tool exits with status zero
while the destination file holds only 500 bytes (at or below the claimed
1000-byte threshold), yet `_execute_ffmpeg` reports success — no size or
existence verification exists in the execution path. -/
theorem execute_ffmpeg_ignores_output_size :
    execute_ffmpeg
      { raised := false, returncode := 0, output_exists := true,
        output_size_bytes := 500 } = true ∧
    (500:ℕ) ≤ 1000 := by
  exact ⟨rfl, by norm_num⟩

/-- Claim C5 (amended): the executor reports success exactly when no
exception was raised and the external tool exited with status zero; the
destination file's existence and size are never inspected. -/
theorem execute_ffmpeg_success_iff (o : ExecOutcome) :
    execute_ffmpeg o = true ↔ (o.raised = false ∧ o.returncode = 0) := by
  rw [execute_ffmpeg]
  by_cases hr : o.raised = true
  · simp [hr]
  · have hr2 : o.raised = false := by simpa using hr
    by_cases hrc : o.returncode = 0
    · simp [hr2, hrc]
    · simp [hr2, hrc]

lemma splitSlash_of_not_mem : ∀ s : List Char, ('/') ∉ s → splitSlash s = [s] := by
  intro s
  induction s with
  | nil =>
    intro _
    rfl
  | cons c rest ih =>
    intro h
    have hc : ¬ c = '/' := fun hc => h (by rw [hc]; exact List.mem_cons_self _ _)
    have hrest : ('/') ∉ rest := fun hm => h (List.mem_cons_of_mem _ hm)
    rw [splitSlash, ih hrest]
    simp [hc]

/-- Claim C8: the frame-rate parser is total and never propagates a
failure: with `pyFloat` abstracting Python's string-to-float conversion, a
"num/den" input whose denominator parses to 0 returns 0, any parse
exception (either part failing, a malformed multi-slash string, or an
unparseable bare number) returns 0, and a well-formed "num/den" or
bare-number input returns the corresponding value. -/
theorem parse_framerate_total_spec (pyFloat : List Char → Option ℚ)
    (s num den : List Char) :
    (splitSlash s = [num, den] → pyFloat den = some 0 →
      parse_framerate pyFloat s = 0) ∧
    (splitSlash s = [num, den] → pyFloat num = none →
      parse_framerate pyFloat s = 0) ∧
    (splitSlash s = [num, den] → pyFloat den = none →
      parse_framerate pyFloat s = 0) ∧
    (∀ n d : ℚ, splitSlash s = [num, den] → pyFloat num = some n →
      pyFloat den = some d → ¬ d = 0 → parse_framerate pyFloat s = n / d) ∧
    (('/') ∉ s → parse_framerate pyFloat s = (pyFloat s).getD 0) ∧
    (('/') ∈ s → (splitSlash s).length ≠ 2 → parse_framerate pyFloat s = 0) := by
  have hmem : splitSlash s = [num, den] → ('/') ∈ s := by
    intro h
    by_contra hns
    rw [splitSlash_of_not_mem s hns] at h
    simp at h
  refine ⟨?_, ?_, ?_, ?_, ?_, ?_⟩
  · intro h hd
    rw [parse_framerate, if_pos (hmem h), h]
    cases hn : pyFloat num <;> simp [hn, hd]
  · intro h hn
    rw [parse_framerate, if_pos (hmem h), h]
    simp [hn]
  · intro h hd
    rw [parse_framerate, if_pos (hmem h), h]
    cases hn : pyFloat num <;> simp [hn, hd]
  · intro n d h hn hd hdne
    rw [parse_framerate, if_pos (hmem h), h]
    simp [hn, hd, hdne]
  · intro h
    rw [parse_framerate, if_neg h]
  · intro hin hlen
    rw [parse_framerate, if_pos hin]
    rcases hsp : splitSlash s with _ | ⟨p1, rest⟩
    · simp
    · rcases rest with _ | ⟨p2, rest2⟩
      · simp
      · rcases rest2 with _ | ⟨p3, rest3⟩
        · rw [hsp] at hlen
          simp at hlen
        · simp

/-- Concrete parsing oracle used by the frame-rate witness: it parses the
strings "30" and "1" and fails on everything else. -/
def pyFloatTest : List Char → Option ℚ := fun cs =>
  if cs = ['3', '0'] then some 30
  else if cs = ['1'] then some 1
  else none

/-- Witness for the frame-rate parser claim: "30/1" parses to 30 and an
unparseable bare string yields 0. -/
theorem parse_framerate_total_spec_witness :
    parse_framerate pyFloatTest ['3', '0', '/', '1'] = 30 ∧
    parse_framerate pyFloatTest ['x'] = 0 := by
  constructor
  · have h := (parse_framerate_total_spec pyFloatTest ['3', '0', '/', '1']
      ['3', '0'] ['1']).2.2.2.1 30 1 (by decide) (by decide) (by decide)
      (by decide)
    simpa using h
  · have h := (parse_framerate_total_spec pyFloatTest ['x'] [] []).2.2.2.2.1
      (by decide)
    rw [show pyFloatTest ['x'] = none from by decide] at h
    simpa using h
